import Mathlib

/-!
Verification of the resilient API-fetch layer of the Cricbuzz dashboard.

The development shallowly embeds the Python source:
* `src/utils/api.py` — `CricbuzzAPI._make_request` (credential gate, retry
  loop with exponential backoff on HTTP 429), `get_player_info`,
  `get_team_players`, `verify_api_connection`;
* `src/pages/2_Live_Matches.py` — `extract_matches_from_response`;
* `src/pages/3_Top_Player_Stats.py` — the per-player normalization inside
  `extract_player_stats_from_trending`.

JSON-compatible Python values are modelled by `JVal` (numbers as rationals,
covering Python ints and floats).  Fallible Python operations (attribute
errors, type errors, key errors) are modelled in `Except Unit`.
-/

/-- A JSON-compatible Python value: None, bool, number, string, list, dict. -/
inductive JVal where
  | null : JVal
  | bool : Bool → JVal
  | num : ℚ → JVal
  | str : String → JVal
  | arr : List JVal → JVal
  | obj : List (String × JVal) → JVal

/-- First value bound to key `k` in a field list (Python dict lookup). -/
def lookupF : List (String × JVal) → String → Option JVal
  | [], _ => none
  | (k2, v) :: fs, k => if k2 = k then some v else lookupF fs k

/-- Python `d.get(k, default)` on a field list. -/
def pget (fs : List (String × JVal)) (k : String) (d : JVal) : JVal :=
  match lookupF fs k with
  | some v => v
  | none => d

/-- Is the value a Python dict? -/
def JVal.isObj : JVal → Bool
  | JVal.obj _ => true
  | _ => false

/-- Python truthiness of a JSON value. -/
def truthy : JVal → Bool
  | JVal.null => false
  | JVal.bool b => b
  | JVal.num q => decide (q ≠ 0)
  | JVal.str s => !s.isEmpty
  | JVal.arr xs => !xs.isEmpty
  | JVal.obj fs => !fs.isEmpty

/-- Python `a or b` (value-returning, truthiness-based). -/
def pyOr (a b : JVal) : JVal := if truthy a then a else b

/-! ## `CricbuzzAPI._make_request` (src/utils/api.py lines 39-63)

One loop iteration observes one upstream behavior: an HTTP response with a
status code and a body (`none` models a body that fails JSON parsing, which
in `requests` raises a `RequestException` caught by the handler), or a
network-level error (`requests.RequestException`). -/

/-- Upstream behavior of a single GET attempt. -/
inductive Outcome where
  | http : Nat → Option JVal → Outcome
  | netErr : Outcome

/-- Result of `_make_request` plus its observable effects: the returned
mapping, how many GET attempts were issued, and the sleeps performed. -/
structure ReqResult where
  value : JVal
  attempts : Nat
  sleeps : List Nat

/-- `return data if isinstance(data, dict) else {"data": data}` (line 51). -/
def wrap200 (b : JVal) : JVal :=
  match b with
  | JVal.obj _ => b
  | _ => JVal.obj [("data", b)]

/-- The `for attempt in range(3)` retry loop of `_make_request`, lines 45-63.
`fuel` counts the remaining loop iterations (3 at entry), `attempt` the
current loop index, `att` the GET attempts issued so far, `sl` the sleeps
performed so far.  Mirrors the source: on status 200 return the parsed body
(a JSON parse failure is a caught `RequestException`: sleep 1 if `attempt <
2`, next iteration); on 429 with `attempt < 2` sleep `2 ^ attempt` and
retry; on any other status log and fall through to the next iteration; on a
network error sleep 1 if `attempt < 2`; when the loop ends return `{}`. -/
def mrfFuel (oracle : Nat → Outcome) : Nat → Nat → Nat → List Nat → ReqResult
  | 0, _, att, sl => ⟨JVal.obj [], att, sl⟩
  | fuel + 1, attempt, att, sl =>
    match oracle attempt with
    | Outcome.http s ob =>
      if s = 200 then
        match ob with
        | some b => ⟨wrap200 b, att + 1, sl⟩
        | none =>
          mrfFuel oracle fuel (attempt + 1) (att + 1)
            (if attempt < 2 then sl ++ [1] else sl)
      else if s = 429 ∧ attempt < 2 then
        mrfFuel oracle fuel (attempt + 1) (att + 1) (sl ++ [2 ^ attempt])
      else
        mrfFuel oracle fuel (attempt + 1) (att + 1) sl
    | Outcome.netErr =>
      mrfFuel oracle fuel (attempt + 1) (att + 1)
        (if attempt < 2 then sl ++ [1] else sl)

/-- `_make_request`: if the gate is disabled return `{}` at once (line 41-42),
otherwise run the 3-iteration retry loop. -/
def make_request (enabled : Bool) (oracle : Nat → Outcome) : ReqResult :=
  if enabled then mrfFuel oracle 3 0 0 [] else ⟨JVal.obj [], 0, []⟩

/-- `self.enabled = bool(self.api_key)` with `api_key = os.getenv(...)`
(lines 24-26): the gate is enabled iff the credential is present and
non-empty. -/
def gateEnabled (key : Option String) : Bool :=
  match key with
  | none => false
  | some s => !s.isEmpty

/-- An attempt outcome that makes the loop return: HTTP 200 with a body that
parses as JSON. -/
def succ200 : Outcome → Bool
  | Outcome.http s ob => if s = 200 then ob.isSome else false
  | Outcome.netErr => false

/-- Sleep performed by one unsuccessful loop iteration, as a list. -/
def stepSleep : Outcome → Nat → List Nat
  | Outcome.http s _, attempt =>
    if s = 200 then (if attempt < 2 then [1] else [])
    else if s = 429 ∧ attempt < 2 then [2 ^ attempt]
    else []
  | Outcome.netErr, attempt => if attempt < 2 then [1] else []

theorem succ200_eq_true {o : Outcome} (h : succ200 o = true) :
    ∃ b, o = Outcome.http 200 (some b) := by
  cases o with
  | http s ob =>
    by_cases h200 : s = 200
    · subst h200
      cases ob with
      | some b => exact ⟨b, rfl⟩
      | none => simp [succ200] at h
    · simp [succ200, h200] at h
  | netErr => simp [succ200] at h

theorem mrf_step_succ {oracle : Nat → Outcome} {fuel attempt att : Nat}
    {sl : List Nat} {b : JVal} (h : oracle attempt = Outcome.http 200 (some b)) :
    mrfFuel oracle (fuel + 1) attempt att sl = ⟨wrap200 b, att + 1, sl⟩ := by
  simp [mrfFuel, h]

theorem mrf_step_unsucc {oracle : Nat → Outcome} {fuel attempt att : Nat}
    {sl : List Nat} (h : succ200 (oracle attempt) = false) :
    mrfFuel oracle (fuel + 1) attempt att sl =
      mrfFuel oracle fuel (attempt + 1) (att + 1)
        (sl ++ stepSleep (oracle attempt) attempt) := by
  cases ho : oracle attempt with
  | http s ob =>
    rw [ho] at h
    by_cases h200 : s = 200
    · subst h200
      cases ob with
      | some b => simp [succ200] at h
      | none =>
        by_cases h2 : attempt < 2 <;>
          simp [mrfFuel, ho, stepSleep, h2]
    · by_cases h429 : s = 429 ∧ attempt < 2
      · simp [mrfFuel, ho, stepSleep, h200, h429]
      · simp [mrfFuel, ho, stepSleep, h200, h429]
  | netErr =>
    by_cases h2 : attempt < 2 <;>
      simp [mrfFuel, ho, stepSleep, h2]

theorem wrap200_isObj (b : JVal) : (wrap200 b).isObj = true := by
  cases b <;> rfl

theorem wrap200_of_isObj {b : JVal} (h : b.isObj = true) : wrap200 b = b := by
  cases b <;> first | rfl | simp [JVal.isObj] at h

theorem mrf_value_isObj (oracle : Nat → Outcome) :
    ∀ fuel attempt att sl, ((mrfFuel oracle fuel attempt att sl).value).isObj = true := by
  intro fuel
  induction fuel with
  | zero => intro attempt att sl; rfl
  | succ n ih =>
    intro attempt att sl
    cases h : succ200 (oracle attempt) with
    | true =>
      obtain ⟨b, hb⟩ := succ200_eq_true h
      rw [mrf_step_succ hb]
      exact wrap200_isObj b
    | false =>
      rw [mrf_step_unsucc h]
      exact ih _ _ _

theorem mrf_first_succ (oracle : Nat → Outcome) :
    ∀ fuel attempt att sl j b, attempt ≤ j → j < attempt + fuel →
      (∀ i, attempt ≤ i → i < j → succ200 (oracle i) = false) →
      oracle j = Outcome.http 200 (some b) →
      (mrfFuel oracle fuel attempt att sl).value = wrap200 b := by
  intro fuel
  induction fuel with
  | zero => intro attempt att sl j b h1 h2 _ _; omega
  | succ n ih =>
    intro attempt att sl j b h1 h2 hprev hj
    by_cases hja : j = attempt
    · subst hja
      rw [mrf_step_succ hj]
    · have hfa : succ200 (oracle attempt) = false :=
        hprev attempt le_rfl (by omega)
      rw [mrf_step_unsucc hfa]
      exact ih (attempt + 1) (att + 1) _ j b (by omega) (by omega)
        (fun i hi1 hi2 => hprev i (by omega) hi2) hj

theorem mrf_all_unsucc (oracle : Nat → Outcome) :
    ∀ fuel attempt att sl,
      (∀ i, attempt ≤ i → i < attempt + fuel → succ200 (oracle i) = false) →
      (mrfFuel oracle fuel attempt att sl).value = JVal.obj [] := by
  intro fuel
  induction fuel with
  | zero => intro attempt att sl _; rfl
  | succ n ih =>
    intro attempt att sl hall
    have hfa : succ200 (oracle attempt) = false :=
      hall attempt le_rfl (by omega)
    rw [mrf_step_unsucc hfa]
    exact ih (attempt + 1) (att + 1) _ (fun i hi1 hi2 => hall i (by omega) (by omega))

/-- C1: with the gate enabled, `_make_request` never raises and always
returns a mapping: it is a total function whose result value is always a
dict; at the first attempt that yields HTTP 200 with a parseable JSON body,
a mapping body is returned as-is and a sequence body is wrapped as
`{"data": <sequence>}`; and when all 3 attempts are unsuccessful the call
returns the empty mapping `{}`. -/
theorem make_request_total_and_result_shape (oracle : Nat → Outcome) :
    (make_request true oracle).value.isObj = true
    ∧ (∀ j b, j < 3 → (∀ i, i < j → succ200 (oracle i) = false) →
        oracle j = Outcome.http 200 (some b) →
        (make_request true oracle).value = wrap200 b
        ∧ (b.isObj = true → (make_request true oracle).value = b)
        ∧ (∀ xs, b = JVal.arr xs →
            (make_request true oracle).value = JVal.obj [("data", JVal.arr xs)]))
    ∧ ((∀ i, i < 3 → succ200 (oracle i) = false) →
        (make_request true oracle).value = JVal.obj []) := by
  have hmr : make_request true oracle = mrfFuel oracle 3 0 0 [] := rfl
  refine ⟨?_, ?_, ?_⟩
  · rw [hmr]; exact mrf_value_isObj oracle 3 0 0 []
  · intro j b hj hprev hjb
    have hv : (make_request true oracle).value = wrap200 b := by
      rw [hmr]
      exact mrf_first_succ oracle 3 0 0 [] j b (Nat.zero_le j) (by omega)
        (fun i _ hi2 => hprev i hi2) hjb
    refine ⟨hv, ?_, ?_⟩
    · intro hobj; rw [hv, wrap200_of_isObj hobj]
    · intro xs hxs; rw [hv, hxs]; rfl
  · intro hall
    rw [hmr]
    exact mrf_all_unsucc oracle 3 0 0 [] (fun i _ hi2 => hall i (by omega))

/-- Witness for C1: with a first attempt answering HTTP 200 with the JSON
array `[]`, the call returns `{"data": []}`. -/
theorem make_request_total_and_result_shape_witness :
    (make_request true (fun _ => Outcome.http 200 (some (JVal.arr [])))).value
      = JVal.obj [("data", JVal.arr [])] :=
  ((make_request_total_and_result_shape
      (fun _ => Outcome.http 200 (some (JVal.arr [])))).2.1 0 (JVal.arr [])
    (by omega) (fun i hi => absurd hi (Nat.not_lt_zero i)) rfl).2.2 [] rfl

/-- A non-200, non-429 HTTP status outcome. -/
def otherStatus (o : Outcome) : Prop :=
  ∃ s b, o = Outcome.http s b ∧ s ≠ 200 ∧ s ≠ 429

/-- Counterexample to C2: a single 404 response does NOT end the request
sequence.  With the upstream answering 404 on every attempt, the loop falls
through `logger.error` to the next iteration, so 3 GET attempts are issued
(not 1) before the call returns `{}`. -/
theorem non200_status_is_retried_cex :
    (make_request true (fun _ => Outcome.http 404 none)).attempts = 3
    ∧ (make_request true (fun _ => Outcome.http 404 none)).value = JVal.obj []
    ∧ (make_request true (fun _ => Outcome.http 404 none)).attempts ≠ 1 :=
  ⟨rfl, rfl, by decide⟩

/-- C2 (amended): with the gate enabled, a non-200 non-429 status on an
attempt is logged and does not end the call: the loop proceeds to the next
attempt with no backoff sleep.  If every attempt returns such a status, 3
attempts are made with no sleeps and the call returns `{}`; a 404 followed
by a 200 yields the 200 body on the second attempt. -/
theorem non200_status_falls_through (oracle : Nat → Outcome) :
    ((∀ i, i < 3 → otherStatus (oracle i)) →
      make_request true oracle = ⟨JVal.obj [], 3, []⟩)
    ∧ (∀ b, oracle 0 = Outcome.http 404 none →
        oracle 1 = Outcome.http 200 (some b) →
        make_request true oracle = ⟨wrap200 b, 2, []⟩) := by
  have hmr : make_request true oracle = mrfFuel oracle 3 0 0 [] := rfl
  constructor
  · intro h
    obtain ⟨s0, b0, e0, hn0, hr0⟩ := h 0 (by omega)
    obtain ⟨s1, b1, e1, hn1, hr1⟩ := h 1 (by omega)
    obtain ⟨s2, b2, e2, hn2, hr2⟩ := h 2 (by omega)
    have f0 : succ200 (oracle 0) = false := by rw [e0]; simp [succ200, hn0]
    have f1 : succ200 (oracle 1) = false := by rw [e1]; simp [succ200, hn1]
    have f2 : succ200 (oracle 2) = false := by rw [e2]; simp [succ200, hn2]
    have t0 : mrfFuel oracle 3 0 0 [] =
        mrfFuel oracle 2 1 1 ([] ++ stepSleep (oracle 0) 0) := mrf_step_unsucc f0
    have t1 : ∀ sl, mrfFuel oracle 2 1 1 sl =
        mrfFuel oracle 1 2 2 (sl ++ stepSleep (oracle 1) 1) :=
      fun sl => mrf_step_unsucc f1
    have t2 : ∀ sl, mrfFuel oracle 1 2 2 sl =
        mrfFuel oracle 0 3 3 (sl ++ stepSleep (oracle 2) 2) :=
      fun sl => mrf_step_unsucc f2
    have w0 : stepSleep (oracle 0) 0 = [] := by rw [e0]; simp [stepSleep, hn0, hr0]
    have w1 : stepSleep (oracle 1) 1 = [] := by rw [e1]; simp [stepSleep, hn1, hr1]
    have w2 : stepSleep (oracle 2) 2 = [] := by rw [e2]; simp [stepSleep, hn2, hr2]
    rw [hmr, t0, w0, t1, w1, t2, w2]
    rfl
  · intro b e0 e1
    have f0 : succ200 (oracle 0) = false := by rw [e0]; simp [succ200]
    have t0 : mrfFuel oracle 3 0 0 [] =
        mrfFuel oracle 2 1 1 ([] ++ stepSleep (oracle 0) 0) := mrf_step_unsucc f0
    have w0 : stepSleep (oracle 0) 0 = [] := by rw [e0]; simp [stepSleep]
    have t1 : mrfFuel oracle 2 1 1 ([] : List Nat) = ⟨wrap200 b, 2, []⟩ :=
      mrf_step_succ e1
    rw [hmr, t0, w0]
    exact t1

/-- Witness for C2 (amended): 404 on every attempt yields 3 attempts, no
sleeps, and `{}`. -/
theorem non200_status_falls_through_witness :
    make_request true (fun _ => Outcome.http 404 none) = ⟨JVal.obj [], 3, []⟩ :=
  (non200_status_falls_through (fun _ => Outcome.http 404 none)).1
    (fun _ _ => ⟨404, none, rfl, by decide, by decide⟩)

/-- C3: with the credential absent (`none`) or empty (`some ""`) the gate is
disabled, and a disabled `_make_request` returns the empty mapping `{}`
immediately with zero GET attempts and no sleeps, whatever the upstream
would have answered. -/
theorem disabled_gate_no_network :
    gateEnabled none = false
    ∧ gateEnabled (some "") = false
    ∧ ∀ oracle : Nat → Outcome,
        make_request (gateEnabled none) oracle = ⟨JVal.obj [], 0, []⟩
        ∧ make_request false oracle = ⟨JVal.obj [], 0, []⟩ :=
  ⟨rfl, rfl, fun _ => ⟨rfl, rfl⟩⟩

/-- C4: with the gate enabled and HTTP 429 on every attempt, exactly 3 GET
attempts are made, the sleeps are exactly `[2 ^ 0, 2 ^ 1] = [1, 2]`, and the
call returns `{}`. -/
theorem rate_limit_backoff (oracle : Nat → Outcome) :
    (∀ i, i < 3 → ∃ b, oracle i = Outcome.http 429 b) →
    make_request true oracle = ⟨JVal.obj [], 3, [1, 2]⟩ := by
  intro h
  obtain ⟨b0, e0⟩ := h 0 (by omega)
  obtain ⟨b1, e1⟩ := h 1 (by omega)
  obtain ⟨b2, e2⟩ := h 2 (by omega)
  have f0 : succ200 (oracle 0) = false := by rw [e0]; simp [succ200]
  have f1 : succ200 (oracle 1) = false := by rw [e1]; simp [succ200]
  have f2 : succ200 (oracle 2) = false := by rw [e2]; simp [succ200]
  have hmr : make_request true oracle = mrfFuel oracle 3 0 0 [] := rfl
  have t0 : mrfFuel oracle 3 0 0 [] =
      mrfFuel oracle 2 1 1 ([] ++ stepSleep (oracle 0) 0) := mrf_step_unsucc f0
  have t1 : ∀ sl, mrfFuel oracle 2 1 1 sl =
      mrfFuel oracle 1 2 2 (sl ++ stepSleep (oracle 1) 1) :=
    fun sl => mrf_step_unsucc f1
  have t2 : ∀ sl, mrfFuel oracle 1 2 2 sl =
      mrfFuel oracle 0 3 3 (sl ++ stepSleep (oracle 2) 2) :=
    fun sl => mrf_step_unsucc f2
  have w0 : stepSleep (oracle 0) 0 = [1] := by rw [e0]; simp [stepSleep]
  have w1 : stepSleep (oracle 1) 1 = [2] := by rw [e1]; simp [stepSleep]
  have w2 : stepSleep (oracle 2) 2 = [] := by rw [e2]; simp [stepSleep]
  rw [hmr, t0, w0, t1, w1, t2, w2]
  rfl

/-- Witness for C4: the constant-429 upstream realizes the hypothesis. -/
theorem rate_limit_backoff_witness :
    make_request true (fun _ => Outcome.http 429 none) = ⟨JVal.obj [], 3, [1, 2]⟩ :=
  rate_limit_backoff (fun _ => Outcome.http 429 none) (fun _ _ => ⟨none, rfl⟩)

/-! ## `extract_matches_from_response` (src/pages/2_Live_Matches.py lines 80-96)

The function walks `data["typeMatches"][i]["seriesMatches"][j]
["seriesAdWrapper"].get("matches", [])[k]["matchInfo"]` inside one
`try/except`: any Python-level error (TypeError from `in` on a non-iterable,
TypeError from subscripting a list/str with a string, AttributeError from
`.get` on a non-dict) aborts the whole extraction and returns `[]`.  The
fallible primitives are modelled in `Except Unit`. -/

/-- Python substring test `needle in hay` for strings. -/
def pyStrIn (needle hay : String) : Bool :=
  decide ((hay.splitOn needle).length ≠ 1)

/-- Python `k in xs` for a list: membership of the string among elements. -/
def listHasStr (xs : List JVal) (k : String) : Bool :=
  xs.any fun v =>
    match v with
    | JVal.str s => decide (s = k)
    | _ => false

/-- Python `k in v`: key test on dicts, membership on lists, substring on
strings; TypeError otherwise. -/
def pyInE (k : String) (v : JVal) : Except Unit Bool :=
  match v with
  | JVal.obj fs => Except.ok (lookupF fs k).isSome
  | JVal.arr xs => Except.ok (listHasStr xs k)
  | JVal.str s => Except.ok (pyStrIn k s)
  | _ => Except.error ()

/-- Python `v[k]` with a string key: dict subscript (KeyError when absent);
TypeError on any other value. -/
def pySubE (v : JVal) (k : String) : Except Unit JVal :=
  match v with
  | JVal.obj fs =>
    match lookupF fs k with
    | some x => Except.ok x
    | none => Except.error ()
  | _ => Except.error ()

/-- Python `v.get(k, d)`: AttributeError unless `v` is a dict. -/
def pyGetE (v : JVal) (k : String) (d : JVal) : Except Unit JVal :=
  match v with
  | JVal.obj fs => Except.ok (pget fs k d)
  | _ => Except.error ()

/-- Python `for x in v`: elements of a list, keys of a dict, one-character
strings of a string; TypeError otherwise. -/
def pyIterE : JVal → Except Unit (List JVal)
  | JVal.arr xs => Except.ok xs
  | JVal.obj fs => Except.ok (fs.map fun kv => JVal.str kv.1)
  | JVal.str s => Except.ok (s.data.map fun c => JVal.str c.toString)
  | _ => Except.error ()

/-- Accumulating fold of a fallible body over a list: the `for` loops of the
extractor, where an exception aborts the whole loop. -/
def foldAccE (f : List JVal → JVal → Except Unit (List JVal)) :
    List JVal → List JVal → Except Unit (List JVal)
  | acc, [] => Except.ok acc
  | acc, x :: xs =>
    match f acc x with
    | Except.ok acc2 => foldAccE f acc2 xs
    | Except.error e => Except.error e

/-- Innermost loop body (lines 90-92): `if "matchInfo" in match:
matches.append(match["matchInfo"])`. -/
def procMatch (acc : List JVal) (m : JVal) : Except Unit (List JVal) :=
  match pyInE "matchInfo" m with
  | Except.error e => Except.error e
  | Except.ok b =>
    if b then
      match pySubE m "matchInfo" with
      | Except.error e => Except.error e
      | Except.ok mi => Except.ok (acc ++ [mi])
    else Except.ok acc

/-- Middle loop body (lines 88-92): guard on `"seriesAdWrapper"`, then
`series_match["seriesAdWrapper"].get("matches", [])` and the inner loop. -/
def procSeriesMatch (acc : List JVal) (sm : JVal) : Except Unit (List JVal) :=
  match pyInE "seriesAdWrapper" sm with
  | Except.error e => Except.error e
  | Except.ok b =>
    if b then
      match pySubE sm "seriesAdWrapper" with
      | Except.error e => Except.error e
      | Except.ok w =>
        match pyGetE w "matches" (JVal.arr []) with
        | Except.error e => Except.error e
        | Except.ok ms =>
          match pyIterE ms with
          | Except.error e => Except.error e
          | Except.ok elems => foldAccE procMatch acc elems
    else Except.ok acc

/-- Outer loop body (lines 86-92): guard on `"seriesMatches"` and the middle
loop. -/
def procTypeMatch (acc : List JVal) (tm : JVal) : Except Unit (List JVal) :=
  match pyInE "seriesMatches" tm with
  | Except.error e => Except.error e
  | Except.ok b =>
    if b then
      match pySubE tm "seriesMatches" with
      | Except.error e => Except.error e
      | Except.ok sms =>
        match pyIterE sms with
        | Except.error e => Except.error e
        | Except.ok elems => foldAccE procSeriesMatch acc elems
    else Except.ok acc

/-- The `try` body of `extract_matches_from_response` (lines 83-93). -/
def extractMatchesE (d : JVal) : Except Unit (List JVal) :=
  match pyInE "typeMatches" d with
  | Except.error e => Except.error e
  | Except.ok b =>
    if b then
      match pySubE d "typeMatches" with
      | Except.error e => Except.error e
      | Except.ok tms =>
        match pyIterE tms with
        | Except.error e => Except.error e
        | Except.ok elems => foldAccE procTypeMatch [] elems
    else Except.ok []

/-- `extract_matches_from_response`: the `except` clause turns any internal
error into `[]` (lines 94-96). -/
def extract_matches_from_response (d : JVal) : List JVal :=
  match extractMatchesE d with
  | Except.ok ms => ms
  | Except.error _ => []

/-! Specification-side description of the extraction, written from the
spec's words (§4.4): the flat depth-first list of the `matchInfo` values
found under `typeMatches[i].seriesMatches[j].seriesAdWrapper.matches[k]`,
where a missing intermediate key at any level contributes the empty
sequence for that branch. -/

/-- Key lookup that answers `none` on anything but a dict. -/
def lookupJ : JVal → String → Option JVal
  | JVal.obj fs, k => lookupF fs k
  | _, _ => none

/-- Elements of an optional value when it is a list; `[]` otherwise. -/
def asArrL : Option JVal → List JVal
  | some (JVal.arr xs) => xs
  | _ => []

/-- Concatenation of `f` over a list, preserving order (depth-first). -/
def collectJ (f : JVal → List JVal) : List JVal → List JVal
  | [] => []
  | x :: xs => f x ++ collectJ f xs

/-- The `matchInfo` record of one matches-element, as a 0/1-element list. -/
def matchInfoOf (m : JVal) : List JVal :=
  match lookupJ m "matchInfo" with
  | some mi => [mi]
  | none => []

/-- The matches list under one seriesMatches-element. -/
def smMatches (sm : JVal) : List JVal :=
  asArrL ((lookupJ sm "seriesAdWrapper").bind fun w => lookupJ w "matches")

/-- Match infos found under one seriesMatches-element. -/
def smFound (sm : JVal) : List JVal := collectJ matchInfoOf (smMatches sm)

/-- Match infos found under one typeMatches-element. -/
def tmFound (tm : JVal) : List JVal :=
  collectJ smFound (asArrL (lookupJ tm "seriesMatches"))

/-- All match infos found in the payload, depth-first. -/
def foundMatches (d : JVal) : List JVal :=
  collectJ tmFound (asArrL (lookupJ d "typeMatches"))

/-- Payload shapes on which the extractor raises no internal error: every
iterated element is a dict and every present `seriesAdWrapper` is a dict
whose present `matches` is a list of dicts. -/
def seriesMatchElemOk (sm : JVal) : Bool :=
  match sm with
  | JVal.obj fs =>
    match lookupF fs "seriesAdWrapper" with
    | none => true
    | some (JVal.obj wf) =>
      match lookupF wf "matches" with
      | none => true
      | some (JVal.arr ms) => ms.all JVal.isObj
      | some _ => false
    | some _ => false
  | _ => false

/-- Well-shapedness of one typeMatches-element. -/
def typeMatchElemOk (tm : JVal) : Bool :=
  match tm with
  | JVal.obj fs =>
    match lookupF fs "seriesMatches" with
    | none => true
    | some (JVal.arr sms) => sms.all seriesMatchElemOk
    | some _ => false
  | _ => false

/-- Well-shapedness of a whole live/upcoming-matches payload. -/
def wellShaped (d : JVal) : Bool :=
  match d with
  | JVal.obj fs =>
    match lookupF fs "typeMatches" with
    | none => true
    | some (JVal.arr tms) => tms.all typeMatchElemOk
    | some _ => false
  | _ => true

theorem foldAccE_ok {f : List JVal → JVal → Except Unit (List JVal)}
    {g : JVal → List JVal} {P : JVal → Bool}
    (hf : ∀ acc x, P x = true → f acc x = Except.ok (acc ++ g x)) :
    ∀ xs acc, (∀ x ∈ xs, P x = true) →
      foldAccE f acc xs = Except.ok (acc ++ collectJ g xs) := by
  intro xs
  induction xs with
  | nil => intro acc _; simp [foldAccE, collectJ]
  | cons x xs ih =>
    intro acc hall
    have hx : f acc x = Except.ok (acc ++ g x) :=
      hf acc x (hall x (List.mem_cons_self x xs))
    simp only [foldAccE, hx]
    rw [ih (acc ++ g x) (fun y hy => hall y (List.mem_cons_of_mem x hy))]
    simp [collectJ, List.append_assoc]

theorem procMatch_ok (acc : List JVal) (m : JVal) (hm : m.isObj = true) :
    procMatch acc m = Except.ok (acc ++ matchInfoOf m) := by
  cases m with
  | obj fs =>
    cases hl : lookupF fs "matchInfo" with
    | none => simp [procMatch, pyInE, matchInfoOf, lookupJ, hl]
    | some mi => simp [procMatch, pyInE, pySubE, matchInfoOf, lookupJ, hl]
  | null => simp [JVal.isObj] at hm
  | bool b => simp [JVal.isObj] at hm
  | num q => simp [JVal.isObj] at hm
  | str s => simp [JVal.isObj] at hm
  | arr xs => simp [JVal.isObj] at hm

theorem procSeriesMatch_ok (acc : List JVal) (sm : JVal)
    (hsm : seriesMatchElemOk sm = true) :
    procSeriesMatch acc sm = Except.ok (acc ++ smFound sm) := by
  cases sm with
  | obj fs =>
    cases hl : lookupF fs "seriesAdWrapper" with
    | none =>
      simp [procSeriesMatch, pyInE, smFound, smMatches, lookupJ, asArrL, hl, collectJ]
    | some w =>
      cases w with
      | obj wf =>
        cases hm : lookupF wf "matches" with
        | none =>
          simp [procSeriesMatch, pyInE, pySubE, pyGetE, pget, pyIterE, hl, hm,
            smFound, smMatches, lookupJ, asArrL, foldAccE, collectJ]
        | some ms =>
          simp only [seriesMatchElemOk, hl, hm] at hsm
          cases ms with
          | arr melems =>
            have hall : ∀ x ∈ melems, JVal.isObj x = true := by
              simpa [List.all_eq_true] using hsm
            simp only [procSeriesMatch, pyInE, pySubE, pyGetE, pget, pyIterE, hl, hm,
              Option.isSome_some, if_pos]
            rw [foldAccE_ok procMatch_ok melems acc hall]
            simp [smFound, smMatches, lookupJ, asArrL, hl, hm]
          | null => simp at hsm
          | bool b => simp at hsm
          | num q => simp at hsm
          | str s => simp at hsm
          | obj gs => simp at hsm
      | null => simp [seriesMatchElemOk, hl] at hsm
      | bool b => simp [seriesMatchElemOk, hl] at hsm
      | num q => simp [seriesMatchElemOk, hl] at hsm
      | str s => simp [seriesMatchElemOk, hl] at hsm
      | arr ys => simp [seriesMatchElemOk, hl] at hsm
  | null => simp [seriesMatchElemOk] at hsm
  | bool b => simp [seriesMatchElemOk] at hsm
  | num q => simp [seriesMatchElemOk] at hsm
  | str s => simp [seriesMatchElemOk] at hsm
  | arr xs => simp [seriesMatchElemOk] at hsm

theorem procTypeMatch_ok (acc : List JVal) (tm : JVal)
    (htm : typeMatchElemOk tm = true) :
    procTypeMatch acc tm = Except.ok (acc ++ tmFound tm) := by
  cases tm with
  | obj fs =>
    cases hl : lookupF fs "seriesMatches" with
    | none =>
      simp [procTypeMatch, pyInE, tmFound, lookupJ, asArrL, hl, collectJ]
    | some v =>
      simp only [typeMatchElemOk, hl] at htm
      cases v with
      | arr sms =>
        have hall : ∀ x ∈ sms, seriesMatchElemOk x = true := by
          simpa [List.all_eq_true] using htm
        simp only [procTypeMatch, pyInE, pySubE, pyIterE, hl,
          Option.isSome_some, if_pos]
        rw [foldAccE_ok procSeriesMatch_ok sms acc hall]
        simp [tmFound, lookupJ, asArrL, hl]
      | null => simp at htm
      | bool b => simp at htm
      | num q => simp at htm
      | str s => simp at htm
      | obj gs => simp at htm
  | null => simp [typeMatchElemOk] at htm
  | bool b => simp [typeMatchElemOk] at htm
  | num q => simp [typeMatchElemOk] at htm
  | str s => simp [typeMatchElemOk] at htm
  | arr xs => simp [typeMatchElemOk] at htm

theorem extract_eq_found_of_wellShaped (d : JVal) (hd : wellShaped d = true) :
    extract_matches_from_response d = foundMatches d := by
  cases d with
  | obj fs =>
    cases hl : lookupF fs "typeMatches" with
    | none =>
      simp [extract_matches_from_response, extractMatchesE, pyInE, hl,
        foundMatches, lookupJ, asArrL, collectJ]
    | some v =>
      simp only [wellShaped, hl] at hd
      cases v with
      | arr tms =>
        have hall : ∀ x ∈ tms, typeMatchElemOk x = true := by
          simpa [List.all_eq_true] using hd
        simp only [extract_matches_from_response, extractMatchesE, pyInE,
          pySubE, pyIterE, hl, Option.isSome_some, if_pos]
        rw [foldAccE_ok procTypeMatch_ok tms [] hall]
        simp [foundMatches, lookupJ, asArrL, hl]
      | null => simp at hd
      | bool b => simp at hd
      | num q => simp at hd
      | str s => simp at hd
      | obj gs => simp at hd
  | null =>
    simp [extract_matches_from_response, extractMatchesE, pyInE,
      foundMatches, lookupJ, asArrL, collectJ]
  | bool b =>
    simp [extract_matches_from_response, extractMatchesE, pyInE,
      foundMatches, lookupJ, asArrL, collectJ]
  | num q =>
    simp [extract_matches_from_response, extractMatchesE, pyInE,
      foundMatches, lookupJ, asArrL, collectJ]
  | str s =>
    cases hb : pyStrIn "typeMatches" s <;>
      simp [extract_matches_from_response, extractMatchesE, pyInE, pySubE, hb,
        foundMatches, lookupJ, asArrL, collectJ]
  | arr xs =>
    cases hb : listHasStr xs "typeMatches" <;>
      simp [extract_matches_from_response, extractMatchesE, pyInE, pySubE, hb,
        foundMatches, lookupJ, asArrL, collectJ]

/-- The match-info record of the §8 scenario payload. -/
def scenarioMatchInfo : JVal :=
  JVal.obj [("team1", JVal.obj [("teamName", JVal.str "India")]),
            ("team2", JVal.obj [("teamName", JVal.str "Australia")])]

/-- One well-formed typeMatches-element holding the scenario match. -/
def scenarioTypeMatch : JVal :=
  JVal.obj [("seriesMatches", JVal.arr [JVal.obj [("seriesAdWrapper",
    JVal.obj [("matches",
      JVal.arr [JVal.obj [("matchInfo", scenarioMatchInfo)]])])]])]

/-- The §8 scenario payload. -/
def scenarioPayload : JVal :=
  JVal.obj [("typeMatches", JVal.arr [scenarioTypeMatch])]

/-- A payload whose typeMatches list holds a well-formed branch with one
match followed by a number, which makes `"seriesMatches" in 42` raise. -/
def badPayload : JVal :=
  JVal.obj [("typeMatches", JVal.arr [scenarioTypeMatch, JVal.num 42])]

/-- Counterexample to C5: the extractor is not branch-local on arbitrary
input.  `badPayload` contains exactly one matchInfo record under the nested
path, but a later non-mapping sibling (`42`) raises a TypeError inside the
loop, so the single `try/except` discards the already-collected record and
the whole call returns `[]` instead of that record. -/
theorem extract_matches_drops_branch_cex :
    extract_matches_from_response badPayload = []
    ∧ foundMatches badPayload = [scenarioMatchInfo]
    ∧ extract_matches_from_response badPayload ≠ foundMatches badPayload := by
  have h1 : extract_matches_from_response badPayload = [] := rfl
  have h2 : foundMatches badPayload = [scenarioMatchInfo] := rfl
  refine ⟨h1, h2, ?_⟩
  rw [h1, h2]
  intro h
  exact absurd (congrArg List.length h) (by decide)

/-- C5 (amended): `extract_matches_from_response` never raises (it is a
total function into lists); on every well-shaped payload — every iterated
element a mapping, every present wrapper a mapping, every present matches
value a list of mappings, with missing intermediate keys allowed anywhere —
it returns exactly the flat depth-first list of matchInfo records found
under `typeMatches[i].seriesMatches[j].seriesAdWrapper.matches[k]`, with a
missing key contributing an empty sequence for its branch; a payload that
makes the extractor raise internally returns `[]` instead.  The §8
single-match scenario yields exactly one record whose team1.teamName is
"India". -/
theorem extract_matches_flattens :
    (∀ d, wellShaped d = true → extract_matches_from_response d = foundMatches d)
    ∧ extract_matches_from_response scenarioPayload = [scenarioMatchInfo]
    ∧ ((lookupJ scenarioMatchInfo "team1").bind fun t => lookupJ t "teamName")
        = some (JVal.str "India") :=
  ⟨extract_eq_found_of_wellShaped, rfl, rfl⟩

/-- Witness for C5 (amended): the scenario payload is well-shaped and its
extraction matches the specification-side description. -/
theorem extract_matches_flattens_witness :
    extract_matches_from_response scenarioPayload = foundMatches scenarioPayload :=
  extract_matches_flattens.1 scenarioPayload rfl

theorem extract_matches_of_arr (xs : List JVal) :
    extract_matches_from_response (JVal.arr xs) = [] := by
  cases hb : listHasStr xs "typeMatches" <;>
    simp [extract_matches_from_response, extractMatchesE, pyInE, pySubE, hb]

/-- A deeply nested payload whose matches list is empty. -/
def deepEmptyPayload : JVal :=
  JVal.obj [("typeMatches", JVal.arr [JVal.obj [("seriesMatches",
    JVal.arr [JVal.obj [("seriesAdWrapper",
      JVal.obj [("matches", JVal.arr [])])]])]])]

/-- Counterexample to C8: extraction is not idempotent on well-formed input.
The §8 scenario payload extracts to a one-element list, but re-running the
extractor on that list (a Python list has no `typeMatches` key; `"typeMatches"
in <list>` is a membership test) yields `[]`, not the list itself. -/
theorem extract_matches_not_idempotent_cex :
    extract_matches_from_response scenarioPayload = [scenarioMatchInfo]
    ∧ extract_matches_from_response
        (JVal.arr (extract_matches_from_response scenarioPayload)) = []
    ∧ extract_matches_from_response
        (JVal.arr (extract_matches_from_response scenarioPayload))
      ≠ extract_matches_from_response scenarioPayload := by
  have h1 : extract_matches_from_response scenarioPayload = [scenarioMatchInfo] := rfl
  have h2 : extract_matches_from_response
      (JVal.arr (extract_matches_from_response scenarioPayload)) = [] := rfl
  refine ⟨h1, h2, ?_⟩
  rw [h2, h1]
  intro h
  exact absurd (congrArg List.length h) (by decide)

/-- C8 (amended): re-applying the extractor to an extraction result (a flat
list) always yields `[]`, so extraction is idempotent precisely on inputs
whose extraction is empty; and it returns `[]` (not an error) for input
missing `typeMatches`, for `typeMatches: []`, and for a deeply nested but
empty matches list. -/
theorem extract_matches_idempotency_characterization :
    (∀ xs, extract_matches_from_response (JVal.arr xs) = [])
    ∧ (∀ d, extract_matches_from_response
        (JVal.arr (extract_matches_from_response d)) = [])
    ∧ (∀ d, (extract_matches_from_response
          (JVal.arr (extract_matches_from_response d))
            = extract_matches_from_response d)
        ↔ extract_matches_from_response d = [])
    ∧ (∀ fs, lookupF fs "typeMatches" = none →
        extract_matches_from_response (JVal.obj fs) = [])
    ∧ extract_matches_from_response (JVal.obj [("typeMatches", JVal.arr [])]) = []
    ∧ extract_matches_from_response deepEmptyPayload = [] := by
  refine ⟨extract_matches_of_arr, ?_, ?_, ?_, rfl, rfl⟩
  · intro d; exact extract_matches_of_arr _
  · intro d
    constructor
    · intro h; rw [← h]; exact extract_matches_of_arr _
    · intro h; rw [h]; exact extract_matches_of_arr []
  · intro fs hl
    simp [extract_matches_from_response, extractMatchesE, pyInE, hl]

/-- Witness for C8 (amended): a mapping without `typeMatches` extracts to
`[]`, and the re-extraction equation holds at the empty payload. -/
theorem extract_matches_idempotency_witness :
    extract_matches_from_response (JVal.obj []) = [] :=
  extract_matches_idempotency_characterization.2.2.2.1 [] rfl

/-! ## Player-record normalization
(src/pages/3_Top_Player_Stats.py lines 74-127, src/utils/api.py 150-199) -/

/-- Python numeric view of a value: ints/floats as rationals, bools as 0/1
(`True == 1`, `False == 0`); `none` for non-numeric values. -/
def toNumQ : JVal → Option ℚ
  | JVal.num q => some q
  | JVal.bool b => some (if b then 1 else 0)
  | _ => none

/-- Python `v > 0`: TypeError unless numeric. -/
def pyGt0E (v : JVal) : Except Unit Bool :=
  match toNumQ v with
  | some q => Except.ok (decide (0 < q))
  | none => Except.error ()

/-- Python `v == 0` (equality never raises; non-numbers compare unequal). -/
def pyEq0 (v : JVal) : Bool :=
  match toNumQ v with
  | some q => decide (q = 0)
  | none => false

/-- Python `a / b`: TypeError unless both numeric, ZeroDivisionError on
`b = 0`. -/
def pyDivE (a b : JVal) : Except Unit ℚ :=
  match toNumQ a, toNumQ b with
  | some x, some y => if y = 0 then Except.error () else Except.ok (x / y)
  | _, _ => Except.error ()

/-- Round to the nearest integer, ties to even (Python's `round`). -/
def roundHalfEven (x : ℚ) : ℤ :=
  let f := ⌊x⌋
  let r := x - f
  if r < 1 / 2 then f
  else if 1 / 2 < r then f + 1
  else if f % 2 = 0 then f else f + 1

/-- Python `round(x, 2)`. -/
def round2 (x : ℚ) : ℚ := (roundHalfEven (x * 100) : ℚ) / 100

/-- Fields of a dict value; `.get` on anything else is an AttributeError. -/
def asFieldsE (v : JVal) : Except Unit (List (String × JVal)) :=
  match v with
  | JVal.obj fs => Except.ok fs
  | _ => Except.error ()

/-- Python dict assignment `d[k] = v` on an existing key `k` (the key keeps
its position, only the value changes). -/
def setK (fs : List (String × JVal)) (k : String) (v : JVal) :
    List (String × JVal) :=
  fs.map fun kv => if kv.1 = k then (k, v) else kv

/-- The strike-rate recomputation (lines 120-121): when runs and balls-faced
are positive and the stored strike rate equals 0, replace it with
`round(runs / balls_faced * 100, 2)`; comparisons on non-numeric values
raise (TypeError), modelled as errors. -/
def srCompute (runs balls_faced strike_rate : JVal) : Except Unit JVal :=
  match pyGt0E runs with
  | Except.error e => Except.error e
  | Except.ok c1 =>
    if c1 then
      match pyGt0E balls_faced with
      | Except.error e => Except.error e
      | Except.ok c2 =>
        if c2 && pyEq0 strike_rate then
          match pyDivE runs balls_faced with
          | Except.error e => Except.error e
          | Except.ok q => Except.ok (JVal.num (round2 (q * 100)))
        else Except.ok strike_rate
    else Except.ok strike_rate

/-- The economy-rate recomputation (lines 123-124): when overs-bowled and
runs-conceded are positive and the stored economy rate equals 0, replace it
with `round(runs_conceded / overs_bowled, 2)`. -/
def erCompute (overs_bowled runs_conceded economy_rate : JVal) :
    Except Unit JVal :=
  match pyGt0E overs_bowled with
  | Except.error e => Except.error e
  | Except.ok d1 =>
    if d1 then
      match pyGt0E runs_conceded with
      | Except.error e => Except.error e
      | Except.ok d2 =>
        if d2 && pyEq0 economy_rate then
          match pyDivE runs_conceded overs_bowled with
          | Except.error e => Except.error e
          | Except.ok q => Except.ok (JVal.num (round2 q))
        else Except.ok economy_rate
    else Except.ok economy_rate

/-- One iteration of the player loop of `extract_player_stats_from_trending`
(lines 74-127), for a `player_data` dict with fields `pd`: `stats`,
`batting_stats` and `bowling_stats` selection (lines 84-86), the normalized
fixed-key record literal (lines 89-117), then the two conditional
recomputations (lines 119-124).  Errors model the Python exceptions that
the caller's `try/except` would catch: `.get` on a non-dict batting/bowling
source, or an order comparison on a non-numeric stat. -/
def normalizePlayerE (pd : List (String × JVal)) :
    Except Unit (List (String × JVal)) :=
  let stats := pget pd "stats" (JVal.obj [])
  match (if truthy stats then pyGetE stats "batting" (JVal.obj [])
      else Except.ok (pget pd "batting" (JVal.obj []))) with
  | Except.error e => Except.error e
  | Except.ok batting_stats =>
  match (if truthy stats then pyGetE stats "bowling" (JVal.obj [])
      else Except.ok (pget pd "bowling" (JVal.obj []))) with
  | Except.error e => Except.error e
  | Except.ok bowling_stats =>
  match asFieldsE batting_stats with
  | Except.error e => Except.error e
  | Except.ok bfs =>
  match asFieldsE bowling_stats with
  | Except.error e => Except.error e
  | Except.ok wfs =>
  let name := pyOr (pyOr (pyOr (pget pd "name" JVal.null)
      (pget pd "playerName" JVal.null)) (pget pd "fullName" JVal.null))
      (JVal.str "Unknown")
  let runs := pyOr (pget bfs "runs" (JVal.num 0)) (pget pd "runs" (JVal.num 0))
  let balls_faced := pyOr (pget bfs "balls" (JVal.num 0)) (pget pd "balls" (JVal.num 0))
  let fours := pyOr (pget bfs "fours" (JVal.num 0)) (pget pd "fours" (JVal.num 0))
  let sixes := pyOr (pget bfs "sixes" (JVal.num 0)) (pget pd "sixes" (JVal.num 0))
  let strike_rate := pyOr (pget bfs "strikeRate" (JVal.num 0))
      (pget pd "strikeRate" (JVal.num 0))
  let highest_score := pyOr (pget bfs "highestScore" (JVal.num 0))
      (pget pd "highestScore" (JVal.num 0))
  let wickets := pyOr (pget wfs "wickets" (JVal.num 0)) (pget pd "wickets" (JVal.num 0))
  let overs_bowled := pyOr (pget wfs "overs" (JVal.num 0)) (pget pd "overs" (JVal.num 0))
  let runs_conceded := pyOr (pget wfs "runsConceded" (JVal.num 0))
      (pget pd "runsConceded" (JVal.num 0))
  let economy_rate := pyOr (pget wfs "economyRate" (JVal.num 0))
      (pget pd "economyRate" (JVal.num 0))
  let best_figures := pyOr (pget wfs "bestFigures" (JVal.str "N/A"))
      (pget pd "bestFigures" (JVal.str "N/A"))
  let base : List (String × JVal) :=
    [("name", name),
     ("team", pget pd "team" (JVal.str "Unknown")),
     ("country", pyOr (pget pd "country" JVal.null) (pget pd "team" (JVal.str "Unknown"))),
     ("role", pget pd "role" (JVal.str "Unknown")),
     ("runs", runs),
     ("balls_faced", balls_faced),
     ("fours", fours),
     ("sixes", sixes),
     ("strike_rate", strike_rate),
     ("highest_score", highest_score),
     ("wickets", wickets),
     ("overs_bowled", overs_bowled),
     ("runs_conceded", runs_conceded),
     ("economy_rate", economy_rate),
     ("best_figures", best_figures),
     ("matches", pget pd "matches" (JVal.num 1)),
     ("average", pget pd "average" (JVal.num 0)),
     ("format", pget pd "format" (JVal.str "Unknown")),
     ("recent_form", pget pd "recentForm" (JVal.str "Unknown")),
     ("trending_score", pget pd "trendingScore" (JVal.num 0)),
     ("rank", pget pd "rank" (JVal.num 0))]
  match srCompute runs balls_faced strike_rate with
  | Except.error e => Except.error e
  | Except.ok srFinal =>
  match erCompute overs_bowled runs_conceded economy_rate with
  | Except.error e => Except.error e
  | Except.ok erFinal =>
    Except.ok (setK (setK base "strike_rate" srFinal) "economy_rate" erFinal)

/-- The 21 keys of a normalized trending-player record, in source order. -/
def trendingKeys : List String :=
  ["name", "team", "country", "role", "runs", "balls_faced", "fours", "sixes",
   "strike_rate", "highest_score", "wickets", "overs_bowled", "runs_conceded",
   "economy_rate", "best_figures", "matches", "average", "format",
   "recent_form", "trending_score", "rank"]

/-- `get_player_info` (src/utils/api.py lines 150-166): the fixed-shape
profile built from the `_make_request` result `data`. -/
def get_player_info (pid : ℚ) (data : JVal) :
    Except Unit (List (String × JVal)) :=
  match asFieldsE data with
  | Except.error e => Except.error e
  | Except.ok fs =>
    Except.ok
      [("id", JVal.num pid),
       ("name", pget fs "name" JVal.null),
       ("role", pget fs "role" JVal.null),
       ("battingStyle", pget fs "battingStyle" JVal.null),
       ("bowlingStyle", pget fs "bowlingStyle" JVal.null),
       ("intlTeam", pget fs "intlTeam" JVal.null),
       ("raw", data)]

/-- The 7 keys of a `get_player_info` record, in source order. -/
def infoKeys : List String :=
  ["id", "name", "role", "battingStyle", "bowlingStyle", "intlTeam", "raw"]

/-- The roster-entry normalizer inside `get_team_players` (src/utils/api.py
lines 189-197): one entry per player `p` of the upstream players list. -/
def normalizeRosterPlayerE (p : JVal) : Except Unit (List (String × JVal)) :=
  match asFieldsE p with
  | Except.error e => Except.error e
  | Except.ok fs =>
    Except.ok
      [("id", pget fs "id" JVal.null),
       ("name", pyOr (pyOr (pget fs "name" JVal.null)
          (pget fs "fullName" JVal.null)) (pget fs "playerName" JVal.null)),
       ("country", pyOr (pyOr (pget fs "country" JVal.null)
          (pget fs "intlTeam" JVal.null)) JVal.null),
       ("role", pget fs "role" JVal.null),
       ("battingStyle", pget fs "battingStyle" JVal.null),
       ("bowlingStyle", pget fs "bowlingStyle" JVal.null)]

/-- The 6 keys of a normalized roster entry, in source order. -/
def rosterKeys : List String :=
  ["id", "name", "country", "role", "battingStyle", "bowlingStyle"]

/-- Roster normalization mapped over the players list (the loop of
`get_team_players`); a non-dict entry raises out of the whole call. -/
def mapNormE : List JVal → Except Unit (List JVal)
  | [] => Except.ok []
  | p :: ps =>
    match normalizeRosterPlayerE p with
    | Except.error e => Except.error e
    | Except.ok r =>
      match mapNormE ps with
      | Except.error e => Except.error e
      | Except.ok rs => Except.ok (JVal.obj r :: rs)

/-- `get_team_players` (src/utils/api.py lines 168-199) applied to the
`_make_request` result `data`: when `data["players"]` is a list, each entry
is normalized and the list is replaced; otherwise `data` is returned
unchanged. -/
def get_team_playersE (data : JVal) : Except Unit JVal :=
  match asFieldsE data with
  | Except.error e => Except.error e
  | Except.ok fs =>
    match pget fs "players" JVal.null with
    | JVal.arr ps =>
      match mapNormE ps with
      | Except.error e => Except.error e
      | Except.ok normalized =>
        Except.ok (JVal.obj (setK fs "players" (JVal.arr normalized)))
    | _ => Except.ok (JVal.obj fs)

/-- `verify_api_connection` (src/utils/api.py lines 228-234): `fetch` is the
behavior of the underlying `get_live_matches()` call — `Except.error`
models an exception raised inside it, which the `try/except` turns into
`False`; on a dict result the code returns `bool(data) and not
data.get("error")`; `.get` on a non-dict raises and is likewise caught. -/
def verify_connection (fetch : Except Unit JVal) : Bool :=
  match fetch with
  | Except.error _ => false
  | Except.ok d =>
    match d with
    | JVal.obj fs => truthy (JVal.obj fs) && !truthy (pget fs "error" JVal.null)
    | _ => false

theorem setK_keys (fs : List (String × JVal)) (k : String) (v : JVal) :
    (setK fs k v).map Prod.fst = fs.map Prod.fst := by
  unfold setK
  induction fs with
  | nil => rfl
  | cons kv rest ih =>
    simp only [List.map_cons, ih]
    by_cases hk : kv.1 = k
    · simp [hk]
    · simp [hk]

theorem round2_of_intCast (n : ℤ) : round2 (n : ℚ) = (n : ℚ) := by
  have hx : ((n : ℚ) * 100) = ((100 * n : ℤ) : ℚ) := by push_cast; ring
  have hfl : ⌊((n : ℚ) * 100)⌋ = 100 * n := by rw [hx, Int.floor_intCast]
  unfold round2 roundHalfEven
  rw [hfl, hx]
  norm_num

theorem round2_sr_concrete : round2 ((50 : ℚ) / 25 * 100) = 200 := by
  have h : ((50 : ℚ) / 25 * 100) = ((200 : ℤ) : ℚ) := by norm_num
  rw [h, round2_of_intCast]
  norm_num

theorem round2_er_concrete : round2 ((30 : ℚ) / 10) = 3 := by
  have h : ((30 : ℚ) / 10) = ((3 : ℤ) : ℚ) := by norm_num
  rw [h, round2_of_intCast]
  norm_num

/-- C9: every normalized record contains every one of its declared keys —
the trending-player normalizer always emits exactly the 21 declared keys in
order, `get_player_info` the 7 declared keys, and the `get_team_players`
roster normalizer the 6 declared keys; and on empty upstream data the
defaults ("Unknown", 0, "N/A", 1, None) are substituted instead of
failing. -/
theorem normalized_records_never_omit_keys :
    (∀ pd rec, normalizePlayerE pd = Except.ok rec →
        rec.map Prod.fst = trendingKeys)
    ∧ (∀ pid data rec, get_player_info pid data = Except.ok rec →
        rec.map Prod.fst = infoKeys)
    ∧ (∀ p rec, normalizeRosterPlayerE p = Except.ok rec →
        rec.map Prod.fst = rosterKeys)
    ∧ (∃ rec, normalizePlayerE [] = Except.ok rec
        ∧ lookupF rec "name" = some (JVal.str "Unknown")
        ∧ lookupF rec "runs" = some (JVal.num 0)
        ∧ lookupF rec "best_figures" = some (JVal.str "N/A")
        ∧ lookupF rec "matches" = some (JVal.num 1))
    ∧ (∃ rec, get_player_info 7 (JVal.obj []) = Except.ok rec
        ∧ lookupF rec "name" = some JVal.null)
    ∧ (∃ rec, normalizeRosterPlayerE (JVal.obj []) = Except.ok rec
        ∧ lookupF rec "country" = some JVal.null) := by
  refine ⟨?_, ?_, ?_, ⟨_, rfl, rfl, rfl, rfl, rfl⟩, ⟨_, rfl, rfl⟩, ⟨_, rfl, rfl⟩⟩
  · intro pd rec h
    simp only [normalizePlayerE] at h
    repeat any_goals split at h
    all_goals try exact Except.noConfusion h
    all_goals (injection h with h2; rw [← h2, setK_keys, setK_keys]; rfl)
  · intro pid data rec h
    simp only [get_player_info] at h
    repeat any_goals split at h
    all_goals try exact Except.noConfusion h
    all_goals (injection h with h2; rw [← h2]; rfl)
  · intro p rec h
    simp only [normalizeRosterPlayerE] at h
    repeat any_goals split at h
    all_goals try exact Except.noConfusion h
    all_goals (injection h with h2; rw [← h2]; rfl)

/-- Witness for C9: the empty player object is normalized with all 21 keys
present. -/
theorem normalized_records_never_omit_keys_witness :
    ∃ rec, normalizePlayerE [] = Except.ok rec ∧ rec.map Prod.fst = trendingKeys :=
  ⟨_, rfl, normalized_records_never_omit_keys.1 [] _ rfl⟩

/-- Counterexample to C7: a result that carries an `error` key bound to a
falsy value (the empty string) makes `verify_api_connection` return `true`,
because the code tests the truthiness of `data.get("error")`, not the
presence of the key; the claim demands `false` here. -/
theorem verify_connection_falsy_error_cex :
    verify_connection (Except.ok (JVal.obj [("error", JVal.str "")])) = true
    ∧ (lookupF [("error", JVal.str "")] "error").isSome = true :=
  ⟨rfl, rfl⟩

/-- C7 (amended): `verify_api_connection` never raises and returns `true`
iff the live-matches fetch returns a non-empty mapping whose `error` value
(defaulting to None) is falsy; in particular any exception from the
underlying fetch yields `false`, and a truthy error value such as
`{"error": "x"}` yields `false`. -/
theorem verify_connection_truthiness :
    (∀ fetch : Except Unit JVal,
      verify_connection fetch = true ↔
        ∃ fs, fetch = Except.ok (JVal.obj fs) ∧ fs ≠ []
          ∧ truthy (pget fs "error" JVal.null) = false)
    ∧ verify_connection (Except.error ()) = false
    ∧ verify_connection (Except.ok (JVal.obj [("error", JVal.str "x")])) = false := by
  refine ⟨?_, rfl, rfl⟩
  intro fetch
  constructor
  · intro h
    match fetch with
    | Except.error e => exact absurd h (by simp [verify_connection])
    | Except.ok JVal.null => exact absurd h (by simp [verify_connection])
    | Except.ok (JVal.bool b) => exact absurd h (by simp [verify_connection])
    | Except.ok (JVal.num q) => exact absurd h (by simp [verify_connection])
    | Except.ok (JVal.str s) => exact absurd h (by simp [verify_connection])
    | Except.ok (JVal.arr xs) => exact absurd h (by simp [verify_connection])
    | Except.ok (JVal.obj fs) =>
      simp only [verify_connection] at h
      rw [Bool.and_eq_true] at h
      obtain ⟨ha, hb⟩ := h
      refine ⟨fs, rfl, ?_, ?_⟩
      · intro hnil
        subst hnil
        simp [truthy] at ha
      · simpa using hb
  · rintro ⟨fs, rfl, hne, hf⟩
    simp only [verify_connection]
    rw [Bool.and_eq_true]
    constructor
    · cases fs with
      | nil => exact absurd rfl hne
      | cons a l => rfl
    · rw [hf]
      rfl

/-- Witness for C7 (amended): a non-empty mapping without an error key makes
the probe answer `true`. -/
theorem verify_connection_truthiness_witness :
    verify_connection (Except.ok (JVal.obj [("matches", JVal.num 1)])) = true :=
  (verify_connection_truthiness.1
      (Except.ok (JVal.obj [("matches", JVal.num 1)]))).mpr
    ⟨[("matches", JVal.num 1)], rfl, by simp, rfl⟩

/-- The value at key `k`, if present, is numeric. -/
def numOrAbsent (pd : List (String × JVal)) (k : String) : Prop :=
  ∀ v, lookupF pd k = some v → ∃ q, v = JVal.num q

theorem srCompute_recomputes {r b : ℚ} (hr : 0 < r) (hb : 0 < b) {sr : JVal}
    (hsr : pyEq0 sr = true) :
    srCompute (JVal.num r) (JVal.num b) sr
      = Except.ok (JVal.num (round2 (r / b * 100))) := by
  simp [srCompute, pyGt0E, toNumQ, decide_eq_true hr, decide_eq_true hb, hsr,
    pyDivE, ne_of_gt hb]

theorem erCompute_recomputes {o c : ℚ} (ho : 0 < o) (hc : 0 < c) {er : JVal}
    (her : pyEq0 er = true) :
    erCompute (JVal.num o) (JVal.num c) er
      = Except.ok (JVal.num (round2 (c / o))) := by
  simp [erCompute, pyGt0E, toNumQ, decide_eq_true ho, decide_eq_true hc, her,
    pyDivE, ne_of_gt ho]

theorem erCompute_num_ok (o c : ℚ) (er : JVal) :
    ∃ E, erCompute (JVal.num o) (JVal.num c) er = Except.ok E := by
  by_cases ho : 0 < o
  · by_cases hc : 0 < c
    · by_cases he : pyEq0 er = true
      · exact ⟨_, erCompute_recomputes ho hc he⟩
      · refine ⟨er, ?_⟩
        simp [erCompute, pyGt0E, toNumQ, decide_eq_true ho, decide_eq_true hc,
          Bool.eq_false_iff.mpr he]
    · refine ⟨er, ?_⟩
      simp [erCompute, pyGt0E, toNumQ, decide_eq_true ho, decide_eq_false hc]
  · refine ⟨er, ?_⟩
    simp [erCompute, pyGt0E, toNumQ, decide_eq_false ho]

theorem srCompute_num_ok (r b : ℚ) (sr : JVal) :
    ∃ S, srCompute (JVal.num r) (JVal.num b) sr = Except.ok S := by
  by_cases hr : 0 < r
  · by_cases hb : 0 < b
    · by_cases hs : pyEq0 sr = true
      · exact ⟨_, srCompute_recomputes hr hb hs⟩
      · refine ⟨sr, ?_⟩
        simp [srCompute, pyGt0E, toNumQ, decide_eq_true hr, decide_eq_true hb,
          Bool.eq_false_iff.mpr hs]
    · refine ⟨sr, ?_⟩
      simp [srCompute, pyGt0E, toNumQ, decide_eq_true hr, decide_eq_false hb]
  · refine ⟨sr, ?_⟩
    simp [srCompute, pyGt0E, toNumQ, decide_eq_false hr]

theorem strike_rate_derived_of_missing :
    ∀ (pd : List (String × JVal)) (r b : ℚ),
    lookupF pd "stats" = none → lookupF pd "batting" = none →
    lookupF pd "bowling" = none → lookupF pd "strikeRate" = none →
    lookupF pd "runs" = some (JVal.num r) → 0 < r →
    lookupF pd "balls" = some (JVal.num b) → 0 < b →
    numOrAbsent pd "overs" → numOrAbsent pd "runsConceded" →
    ∃ rec, normalizePlayerE pd = Except.ok rec
      ∧ lookupF rec "strike_rate" = some (JVal.num (round2 (r / b * 100))) := by
  intro pd r b hstats hbat hbowl hsr hruns hr hballs hb hov hrc
  have e1 : pget pd "stats" (JVal.obj []) = JVal.obj [] := by simp [pget, hstats]
  have e2 : pget pd "batting" (JVal.obj []) = JVal.obj [] := by simp [pget, hbat]
  have e3 : pget pd "bowling" (JVal.obj []) = JVal.obj [] := by simp [pget, hbowl]
  have e4 : pget pd "runs" (JVal.num 0) = JVal.num r := by simp [pget, hruns]
  have e5 : pget pd "balls" (JVal.num 0) = JVal.num b := by simp [pget, hballs]
  have e6 : pget pd "strikeRate" (JVal.num 0) = JVal.num 0 := by simp [pget, hsr]
  obtain ⟨qo, e7⟩ : ∃ qo, pget pd "overs" (JVal.num 0) = JVal.num qo := by
    cases hlo : lookupF pd "overs" with
    | none => exact ⟨0, by simp [pget, hlo]⟩
    | some v =>
      obtain ⟨q, rfl⟩ := hov v hlo
      exact ⟨q, by simp [pget, hlo]⟩
  obtain ⟨qc, e8⟩ : ∃ qc, pget pd "runsConceded" (JVal.num 0) = JVal.num qc := by
    cases hlc : lookupF pd "runsConceded" with
    | none => exact ⟨0, by simp [pget, hlc]⟩
    | some v =>
      obtain ⟨q, rfl⟩ := hrc v hlc
      exact ⟨q, by simp [pget, hlc]⟩
  have t1 : truthy (JVal.obj []) = false := rfl
  have p0 : ∀ k d, pget [] k d = d := fun k d => rfl
  have por0 : ∀ X, pyOr (JVal.num 0) X = X := fun X => rfl
  have porNA : ∀ X, pyOr (JVal.str "N/A") X = JVal.str "N/A" := fun X => rfl
  have hsrc : srCompute (JVal.num r) (JVal.num b) (JVal.num 0)
      = Except.ok (JVal.num (round2 (r / b * 100))) :=
    srCompute_recomputes hr hb rfl
  obtain ⟨E, hE⟩ := erCompute_num_ok qo qc (pget pd "economyRate" (JVal.num 0))
  simp only [normalizePlayerE, e1, e2, e3, t1, Bool.false_eq_true, if_false,
    asFieldsE, p0, por0, porNA, e4, e5, e6, e7, e8, hsrc, hE]
  exact ⟨_, rfl, rfl⟩

theorem economy_rate_derived_of_missing :
    ∀ (pd : List (String × JVal)) (o c : ℚ),
    lookupF pd "stats" = none → lookupF pd "batting" = none →
    lookupF pd "bowling" = none → lookupF pd "economyRate" = none →
    lookupF pd "overs" = some (JVal.num o) → 0 < o →
    lookupF pd "runsConceded" = some (JVal.num c) → 0 < c →
    numOrAbsent pd "runs" → numOrAbsent pd "balls" → numOrAbsent pd "strikeRate" →
    ∃ rec, normalizePlayerE pd = Except.ok rec
      ∧ lookupF rec "economy_rate" = some (JVal.num (round2 (c / o))) := by
  intro pd o c hstats hbat hbowl her hovers ho hrcl hc hruns hballs hsr
  have e1 : pget pd "stats" (JVal.obj []) = JVal.obj [] := by simp [pget, hstats]
  have e2 : pget pd "batting" (JVal.obj []) = JVal.obj [] := by simp [pget, hbat]
  have e3 : pget pd "bowling" (JVal.obj []) = JVal.obj [] := by simp [pget, hbowl]
  have e4 : pget pd "overs" (JVal.num 0) = JVal.num o := by simp [pget, hovers]
  have e5 : pget pd "runsConceded" (JVal.num 0) = JVal.num c := by simp [pget, hrcl]
  have e6 : pget pd "economyRate" (JVal.num 0) = JVal.num 0 := by simp [pget, her]
  obtain ⟨qr, e7⟩ : ∃ qr, pget pd "runs" (JVal.num 0) = JVal.num qr := by
    cases hl : lookupF pd "runs" with
    | none => exact ⟨0, by simp [pget, hl]⟩
    | some v =>
      obtain ⟨q, rfl⟩ := hruns v hl
      exact ⟨q, by simp [pget, hl]⟩
  obtain ⟨qb, e8⟩ : ∃ qb, pget pd "balls" (JVal.num 0) = JVal.num qb := by
    cases hl : lookupF pd "balls" with
    | none => exact ⟨0, by simp [pget, hl]⟩
    | some v =>
      obtain ⟨q, rfl⟩ := hballs v hl
      exact ⟨q, by simp [pget, hl]⟩
  obtain ⟨qs, e9⟩ : ∃ qs, pget pd "strikeRate" (JVal.num 0) = JVal.num qs := by
    cases hl : lookupF pd "strikeRate" with
    | none => exact ⟨0, by simp [pget, hl]⟩
    | some v =>
      obtain ⟨q, rfl⟩ := hsr v hl
      exact ⟨q, by simp [pget, hl]⟩
  have t1 : truthy (JVal.obj []) = false := rfl
  have p0 : ∀ k d, pget [] k d = d := fun k d => rfl
  have por0 : ∀ X, pyOr (JVal.num 0) X = X := fun X => rfl
  have porNA : ∀ X, pyOr (JVal.str "N/A") X = JVal.str "N/A" := fun X => rfl
  obtain ⟨S, hS⟩ := srCompute_num_ok qr qb (JVal.num qs)
  have herc : erCompute (JVal.num o) (JVal.num c) (JVal.num 0)
      = Except.ok (JVal.num (round2 (c / o))) := erCompute_recomputes ho hc rfl
  simp only [normalizePlayerE, e1, e2, e3, t1, Bool.false_eq_true, if_false,
    asFieldsE, p0, por0, porNA, e4, e5, e6, e7, e8, e9, hS, herc]
  exact ⟨_, rfl, rfl⟩

/-- C6: in player-record normalization, when strike rate is not supplied
(key absent) but runs and balls-faced are top-level positive numbers, the
output strike_rate is `round(runs / balls_faced * 100, 2)`; symmetrically,
when economy rate is not supplied but overs and runs-conceded are positive,
the output economy_rate is `round(runs_conceded / overs_bowled, 2)`.  In
particular `{"runs": 50, "balls": 25}` yields strike_rate 200 and
`{"overs": 10, "runsConceded": 30}` yields economy_rate 3. -/
theorem derived_rate_rules :
    (∀ (pd : List (String × JVal)) (r b : ℚ),
      lookupF pd "stats" = none → lookupF pd "batting" = none →
      lookupF pd "bowling" = none → lookupF pd "strikeRate" = none →
      lookupF pd "runs" = some (JVal.num r) → 0 < r →
      lookupF pd "balls" = some (JVal.num b) → 0 < b →
      numOrAbsent pd "overs" → numOrAbsent pd "runsConceded" →
      ∃ rec, normalizePlayerE pd = Except.ok rec
        ∧ lookupF rec "strike_rate" = some (JVal.num (round2 (r / b * 100))))
    ∧ (∀ (pd : List (String × JVal)) (o c : ℚ),
      lookupF pd "stats" = none → lookupF pd "batting" = none →
      lookupF pd "bowling" = none → lookupF pd "economyRate" = none →
      lookupF pd "overs" = some (JVal.num o) → 0 < o →
      lookupF pd "runsConceded" = some (JVal.num c) → 0 < c →
      numOrAbsent pd "runs" → numOrAbsent pd "balls" →
      numOrAbsent pd "strikeRate" →
      ∃ rec, normalizePlayerE pd = Except.ok rec
        ∧ lookupF rec "economy_rate" = some (JVal.num (round2 (c / o))))
    ∧ (∃ rec, normalizePlayerE [("runs", JVal.num 50), ("balls", JVal.num 25)]
        = Except.ok rec
        ∧ lookupF rec "strike_rate" = some (JVal.num (round2 (50 / 25 * 100))))
    ∧ round2 ((50 : ℚ) / 25 * 100) = 200
    ∧ (∃ rec, normalizePlayerE [("overs", JVal.num 10), ("runsConceded", JVal.num 30)]
        = Except.ok rec
        ∧ lookupF rec "economy_rate" = some (JVal.num (round2 (30 / 10))))
    ∧ round2 ((30 : ℚ) / 10) = 3 :=
  ⟨strike_rate_derived_of_missing, economy_rate_derived_of_missing,
   ⟨_, rfl, rfl⟩, round2_sr_concrete, ⟨_, rfl, rfl⟩, round2_er_concrete⟩

/-- Witness for C6: the first rule applied at `{"runs": 50, "balls": 25}`. -/
theorem derived_rate_rules_witness :
    ∃ rec, normalizePlayerE [("runs", JVal.num 50), ("balls", JVal.num 25)]
      = Except.ok rec
      ∧ lookupF rec "strike_rate" = some (JVal.num (round2 (50 / 25 * 100))) :=
  derived_rate_rules.1 [("runs", JVal.num 50), ("balls", JVal.num 25)] 50 25
    rfl rfl rfl rfl rfl (by norm_num) rfl (by norm_num)
    (fun v h => Option.noConfusion h) (fun v h => Option.noConfusion h)

/-- C10: "missing" for a stat means zero/falsiness of the looked-up value,
not absence of the key — a strike rate explicitly supplied as 0 with
positive runs and balls is recomputed to `round(runs / balls * 100, 2)`
rather than kept at 0; the same holds for an economy rate supplied as 0
with positive overs and runs-conceded; and a nested `stats.batting` value
of 0 falls back to the top-level field (here `runs`). -/
theorem zero_stat_treated_as_missing :
    (∀ r b : ℚ, 0 < r → 0 < b →
      ∃ rec, normalizePlayerE [("runs", JVal.num r), ("balls", JVal.num b),
          ("strikeRate", JVal.num 0)] = Except.ok rec
        ∧ lookupF rec "strike_rate" = some (JVal.num (round2 (r / b * 100))))
    ∧ (∀ o c : ℚ, 0 < o → 0 < c →
      ∃ rec, normalizePlayerE [("overs", JVal.num o), ("runsConceded", JVal.num c),
          ("economyRate", JVal.num 0)] = Except.ok rec
        ∧ lookupF rec "economy_rate" = some (JVal.num (round2 (c / o))))
    ∧ (∀ r : ℚ,
      ∃ rec, normalizePlayerE [("stats", JVal.obj [("batting",
          JVal.obj [("runs", JVal.num 0)])]), ("runs", JVal.num r)] = Except.ok rec
        ∧ lookupF rec "runs" = some (JVal.num r)) := by
  refine ⟨?_, ?_, ?_⟩
  · intro r b hr hb
    have e1 : pget [("runs", JVal.num r), ("balls", JVal.num b),
        ("strikeRate", JVal.num 0)] "stats" (JVal.obj []) = JVal.obj [] := rfl
    have e2 : pget [("runs", JVal.num r), ("balls", JVal.num b),
        ("strikeRate", JVal.num 0)] "batting" (JVal.obj []) = JVal.obj [] := rfl
    have e3 : pget [("runs", JVal.num r), ("balls", JVal.num b),
        ("strikeRate", JVal.num 0)] "bowling" (JVal.obj []) = JVal.obj [] := rfl
    have e4 : pget [("runs", JVal.num r), ("balls", JVal.num b),
        ("strikeRate", JVal.num 0)] "runs" (JVal.num 0) = JVal.num r := rfl
    have e5 : pget [("runs", JVal.num r), ("balls", JVal.num b),
        ("strikeRate", JVal.num 0)] "balls" (JVal.num 0) = JVal.num b := rfl
    have e6 : pget [("runs", JVal.num r), ("balls", JVal.num b),
        ("strikeRate", JVal.num 0)] "strikeRate" (JVal.num 0) = JVal.num 0 := rfl
    have e7 : pget [("runs", JVal.num r), ("balls", JVal.num b),
        ("strikeRate", JVal.num 0)] "overs" (JVal.num 0) = JVal.num 0 := rfl
    have e8 : pget [("runs", JVal.num r), ("balls", JVal.num b),
        ("strikeRate", JVal.num 0)] "runsConceded" (JVal.num 0) = JVal.num 0 := rfl
    have t1 : truthy (JVal.obj []) = false := rfl
    have p0 : ∀ k d, pget [] k d = d := fun k d => rfl
    have por0 : ∀ X, pyOr (JVal.num 0) X = X := fun X => rfl
    have porNA : ∀ X, pyOr (JVal.str "N/A") X = JVal.str "N/A" := fun X => rfl
    have hsrc : srCompute (JVal.num r) (JVal.num b) (JVal.num 0)
        = Except.ok (JVal.num (round2 (r / b * 100))) :=
      srCompute_recomputes hr hb rfl
    have her : erCompute (JVal.num 0) (JVal.num 0) (JVal.num 0)
        = Except.ok (JVal.num 0) := rfl
    simp only [normalizePlayerE, e1, e2, e3, t1, Bool.false_eq_true, if_false,
      asFieldsE, p0, por0, porNA, e4, e5, e6, e7, e8, hsrc, her]
    exact ⟨_, rfl, rfl⟩
  · intro o c ho hc
    have e1 : pget [("overs", JVal.num o), ("runsConceded", JVal.num c),
        ("economyRate", JVal.num 0)] "stats" (JVal.obj []) = JVal.obj [] := rfl
    have e2 : pget [("overs", JVal.num o), ("runsConceded", JVal.num c),
        ("economyRate", JVal.num 0)] "batting" (JVal.obj []) = JVal.obj [] := rfl
    have e3 : pget [("overs", JVal.num o), ("runsConceded", JVal.num c),
        ("economyRate", JVal.num 0)] "bowling" (JVal.obj []) = JVal.obj [] := rfl
    have e4 : pget [("overs", JVal.num o), ("runsConceded", JVal.num c),
        ("economyRate", JVal.num 0)] "runs" (JVal.num 0) = JVal.num 0 := rfl
    have e5 : pget [("overs", JVal.num o), ("runsConceded", JVal.num c),
        ("economyRate", JVal.num 0)] "balls" (JVal.num 0) = JVal.num 0 := rfl
    have e6 : pget [("overs", JVal.num o), ("runsConceded", JVal.num c),
        ("economyRate", JVal.num 0)] "strikeRate" (JVal.num 0) = JVal.num 0 := rfl
    have e7 : pget [("overs", JVal.num o), ("runsConceded", JVal.num c),
        ("economyRate", JVal.num 0)] "overs" (JVal.num 0) = JVal.num o := rfl
    have e8 : pget [("overs", JVal.num o), ("runsConceded", JVal.num c),
        ("economyRate", JVal.num 0)] "runsConceded" (JVal.num 0) = JVal.num c := rfl
    have e9 : pget [("overs", JVal.num o), ("runsConceded", JVal.num c),
        ("economyRate", JVal.num 0)] "economyRate" (JVal.num 0) = JVal.num 0 := rfl
    have t1 : truthy (JVal.obj []) = false := rfl
    have p0 : ∀ k d, pget [] k d = d := fun k d => rfl
    have por0 : ∀ X, pyOr (JVal.num 0) X = X := fun X => rfl
    have porNA : ∀ X, pyOr (JVal.str "N/A") X = JVal.str "N/A" := fun X => rfl
    have hsrc : srCompute (JVal.num 0) (JVal.num 0) (JVal.num 0)
        = Except.ok (JVal.num 0) := rfl
    have herc : erCompute (JVal.num o) (JVal.num c) (JVal.num 0)
        = Except.ok (JVal.num (round2 (c / o))) := erCompute_recomputes ho hc rfl
    simp only [normalizePlayerE, e1, e2, e3, t1, Bool.false_eq_true, if_false,
      asFieldsE, p0, por0, porNA, e4, e5, e6, e7, e8, e9, hsrc, herc]
    exact ⟨_, rfl, rfl⟩
  · intro r
    have e1 : pget [("stats", JVal.obj [("batting", JVal.obj [("runs", JVal.num 0)])]),
        ("runs", JVal.num r)] "stats" (JVal.obj [])
        = JVal.obj [("batting", JVal.obj [("runs", JVal.num 0)])] := rfl
    have t2 : truthy (JVal.obj [("batting", JVal.obj [("runs", JVal.num 0)])])
        = true := rfl
    have g1 : pyGetE (JVal.obj [("batting", JVal.obj [("runs", JVal.num 0)])])
        "batting" (JVal.obj []) = Except.ok (JVal.obj [("runs", JVal.num 0)]) := rfl
    have g2 : pyGetE (JVal.obj [("batting", JVal.obj [("runs", JVal.num 0)])])
        "bowling" (JVal.obj []) = Except.ok (JVal.obj []) := rfl
    have e4 : pget [("stats", JVal.obj [("batting", JVal.obj [("runs", JVal.num 0)])]),
        ("runs", JVal.num r)] "runs" (JVal.num 0) = JVal.num r := rfl
    have b0 : pget [("runs", JVal.num 0)] "runs" (JVal.num 0) = JVal.num 0 := rfl
    have b1 : pget [("runs", JVal.num 0)] "balls" (JVal.num 0) = JVal.num 0 := rfl
    have b2 : pget [("runs", JVal.num 0)] "strikeRate" (JVal.num 0) = JVal.num 0 := rfl
    have o3 : pget [("stats", JVal.obj [("batting", JVal.obj [("runs", JVal.num 0)])]),
        ("runs", JVal.num r)] "balls" (JVal.num 0) = JVal.num 0 := rfl
    have o4 : pget [("stats", JVal.obj [("batting", JVal.obj [("runs", JVal.num 0)])]),
        ("runs", JVal.num r)] "strikeRate" (JVal.num 0) = JVal.num 0 := rfl
    have o5 : pget [("stats", JVal.obj [("batting", JVal.obj [("runs", JVal.num 0)])]),
        ("runs", JVal.num r)] "overs" (JVal.num 0) = JVal.num 0 := rfl
    have o6 : pget [("stats", JVal.obj [("batting", JVal.obj [("runs", JVal.num 0)])]),
        ("runs", JVal.num r)] "runsConceded" (JVal.num 0) = JVal.num 0 := rfl
    have o7 : pget [("stats", JVal.obj [("batting", JVal.obj [("runs", JVal.num 0)])]),
        ("runs", JVal.num r)] "economyRate" (JVal.num 0) = JVal.num 0 := rfl
    have p0 : ∀ k d, pget [] k d = d := fun k d => rfl
    have por0 : ∀ X, pyOr (JVal.num 0) X = X := fun X => rfl
    obtain ⟨S, hS⟩ := srCompute_num_ok r 0 (JVal.num 0)
    have her : erCompute (JVal.num 0) (JVal.num 0) (JVal.num 0)
        = Except.ok (JVal.num 0) := rfl
    simp only [normalizePlayerE, e1, t2, if_true, g1, g2, asFieldsE, p0, por0,
      e4, b0, b1, b2, o3, o4, o5, o6, o7, her, hS]
    exact ⟨_, rfl, rfl⟩

/-- Witness for C10: strike rate supplied as 0 with runs 50 and balls 25 is
recomputed. -/
theorem zero_stat_treated_as_missing_witness :
    ∃ rec, normalizePlayerE [("runs", JVal.num 50), ("balls", JVal.num 25),
        ("strikeRate", JVal.num 0)] = Except.ok rec
      ∧ lookupF rec "strike_rate" = some (JVal.num (round2 (50 / 25 * 100))) :=
  zero_stat_treated_as_missing.1 50 25 (by norm_num) (by norm_num)
